import Mathlib

/-!
# Verification of the ChatRealm frontend stores and handlers

Shallow embedding of the TypeScript sources of the `calhacks24` repository:
the zustand room store (`addMessage`, `addTypingUser`, `removeTypingUser`),
the game store (`updateAvatarPosition`), the socket service (`sendMessage`),
the `GameRoom` socket listeners (`user_joined` / `user_left`), the
`ModerationNotifications` component, the `ChatPanel` send handler, and a
spec-modelled moderation pipeline.

Timestamps (ISO strings parsed with `new Date(...).getTime()` in the code)
are embedded as the integer epoch milliseconds they denote.  JavaScript
`Map` values are embedded as insertion-ordered association lists with the
`Map.get` / `Map.set` semantics.  JavaScript `undefined`-able fields are
embedded as `Option`, and `===` on two possibly-`undefined` values as
equality of the `Option`s (so `undefined === undefined` is `true`).
-/

/-- The `Message` interface from `types.ts`: `content` and `user_id` are
optional fields, `timestamp` is embedded as epoch milliseconds. -/
structure Message where
  message_id : String
  room_id : String
  user_id : Option String
  username : String
  message : String
  content : Option String
  message_type : String
  timestamp : Int
  deriving DecidableEq, Repr

/-- One step of the duplicate scan in `roomStore.addMessage`
(`part_002` lines 100–113 / `part_003` lines 37–50): exact `message_id`
match, else same `username` with `m.message === message.message ||
m.content === message.content` and `|Δtimestamp| < 2000` ms. -/
def isNearDuplicate (old m : Message) : Bool :=
  old.message_id == m.message_id ||
    (old.username == m.username &&
      (old.message == m.message || old.content == m.content) &&
      decide ((old.timestamp - m.timestamp).natAbs < 2000))

/-- The scan `currentMessages.some(...)` over the duplicate test. -/
def isDuplicate (msgs : List Message) (m : Message) : Bool :=
  msgs.any (fun old => isNearDuplicate old m)

/-- Embedding of `roomStore.addMessage`, deduplicating variant (`part_002` lines 95–122,
`part_003` lines 32–59): drop `m` when the scan finds a duplicate, else
append it (`[...currentMessages, message]`). -/
def addMessage (msgs : List Message) (m : Message) : List Message :=
  if isDuplicate msgs m then msgs else msgs ++ [m]

/-- Embedding of `roomStore.addMessage`, plain-append variant (`part_002` lines 32–34):
`messages: [...state.messages, message]`. -/
def addMessageAppend (msgs : List Message) (m : Message) : List Message :=
  msgs ++ [m]

/-- The duplicate condition in the words of the claim: the list holds a
message with the same id, or one from the same user whose message text is
identical and whose timestamp is within 2 s. -/
def specDuplicate (msgs : List Message) (m : Message) : Bool :=
  msgs.any (fun old =>
    old.message_id == m.message_id ||
      (old.username == m.username && old.message == m.message &&
        decide ((old.timestamp - m.timestamp).natAbs < 2000)))

/-- JavaScript `[...new Set(xs)]`: drop every later occurrence of an
element, keeping first occurrences in order. -/
def jsSetDedup : List String → List String
  | [] => []
  | x :: xs => x :: jsSetDedup (xs.filter (fun y => y ≠ x))
termination_by l => l.length
decreasing_by
  simp only [List.length_cons]
  exact Nat.lt_succ_of_le (List.length_filter_le _ _)

/-- Embedding of `roomStore.addTypingUser` (`part_002` lines 148–154, `part_003`
lines 65–72): `[...new Set([...state.typingUsers, username])]`. -/
def addTypingUser (l : List String) (username : String) : List String :=
  jsSetDedup (l ++ [username])

/-- Embedding of `roomStore.removeTypingUser` (`part_003` lines 74–81):
`state.typingUsers.filter(u => u !== username)`. -/
def removeTypingUser (l : List String) (username : String) : List String :=
  l.filter (fun u => u ≠ username)

/-! ## Helper lemmas on `jsSetDedup` -/

theorem mem_jsSetDedup {a : String} : ∀ {l : List String}, a ∈ jsSetDedup l → a ∈ l
  | [], h => by rw [jsSetDedup] at h; exact absurd h (List.not_mem_nil a)
  | x :: xs, h => by
    rw [jsSetDedup] at h
    rcases List.mem_cons.mp h with h | h
    · exact h ▸ List.mem_cons_self _ _
    · exact List.mem_cons_of_mem _ (List.mem_of_mem_filter (mem_jsSetDedup h))
termination_by l => l.length
decreasing_by
  simp only [List.length_cons]
  exact Nat.lt_succ_of_le (List.length_filter_le _ _)

theorem jsSetDedup_nodup : ∀ l : List String, (jsSetDedup l).Nodup
  | [] => by simp [jsSetDedup]
  | x :: xs => by
    rw [jsSetDedup]
    refine List.nodup_cons.mpr ⟨fun hx => ?_, jsSetDedup_nodup _⟩
    have := List.of_mem_filter (mem_jsSetDedup hx)
    simp at this
termination_by l => l.length
decreasing_by
  simp only [List.length_cons]
  exact Nat.lt_succ_of_le (List.length_filter_le _ _)

theorem jsSetDedup_eq_self {l : List String} (h : l.Nodup) : jsSetDedup l = l := by
  induction l with
  | nil => simp [jsSetDedup]
  | cons x xs ih =>
    rw [jsSetDedup]
    rcases List.nodup_cons.mp h with ⟨hx, hxs⟩
    have hf : xs.filter (fun y => y ≠ x) = xs := by
      apply List.filter_eq_self.mpr
      intro y hy
      simp only [ne_eq, decide_eq_true_eq]
      exact fun hyx => hx (hyx ▸ hy)
    rw [hf, ih hxs]

theorem jsSetDedup_append_singleton {l : List String} (u : String) (h : l.Nodup) :
    jsSetDedup (l ++ [u]) = if u ∈ l then l else l ++ [u] := by
  induction l with
  | nil => simp [jsSetDedup]
  | cons x xs ih =>
    rcases List.nodup_cons.mp h with ⟨hx, hxs⟩
    rw [List.cons_append, jsSetDedup]
    have hf : xs.filter (fun y => y ≠ x) = xs := by
      apply List.filter_eq_self.mpr
      intro y hy
      simp only [ne_eq, decide_eq_true_eq]
      exact fun hyx => hx (hyx ▸ hy)
    by_cases hu : u = x
    · subst hu
      have hfu : List.filter (fun y => decide (y ≠ u)) [u] = [] := by simp
      rw [List.filter_append, hf, hfu, List.append_nil, jsSetDedup_eq_self hxs]
      simp [List.mem_cons]
    · have hfu : List.filter (fun y => decide (y ≠ x)) [u] = [u] := by simp [hu]
      rw [List.filter_append, hf, hfu, ih hxs]
      by_cases hm : u ∈ xs
      · simp [hm, List.mem_cons, hu]
      · simp [hm, List.mem_cons, hu]

/-! ## Game store (`gameStore.ts`) -/

/-- The `Position` interface from `types.ts` (numeric coordinates). -/
structure Position where
  x : Int
  y : Int
  deriving DecidableEq, Repr

/-- The `Avatar` interface of `gameStore.ts` (lines 4–10). -/
structure Avatar where
  userId : String
  username : String
  position : Position
  avatarStyle : String
  avatarColor : String
  deriving DecidableEq, Repr

/-- JavaScript `Map.get` on a `Map` embedded as an insertion-ordered
association list. -/
def mapGet (m : List (String × Avatar)) (k : String) : Option Avatar :=
  (m.find? (fun p => p.1 == k)).map (fun p => p.2)

/-- JavaScript `Map.set`: replace in place when the key exists,
append otherwise. -/
def mapSet (m : List (String × Avatar)) (k : String) (v : Avatar) :
    List (String × Avatar) :=
  if m.any (fun p => p.1 == k) then
    m.map (fun p => if p.1 == k then (k, v) else p)
  else
    m ++ [(k, v)]

/-- Embedding of `gameStore.updateAvatarPosition` (lines 42–49): copy the map, look up
`userId`, and when an avatar is found store `{ ...avatar, position }` under
`userId`; an unknown `userId` changes nothing. -/
def updateAvatarPosition (m : List (String × Avatar)) (userId : String)
    (position : Position) : List (String × Avatar) :=
  match mapGet m userId with
  | some avatar => mapSet m userId { avatar with position := position }
  | none => m

/-! ## Socket service (`socketService.ts`, embedded in
`GameRoom.tsx` lines 466–695) -/

/-- The payload type of `SocketService.sendMessage`: exactly the fields
`room_id`, `user_id`, `username`, `message`. -/
structure SendMessageData where
  room_id : String
  user_id : String
  username : String
  message : String
  deriving DecidableEq, Repr

/-- Embedding of `SocketService.sendMessage`: throw `'Socket not connected'` when the
socket is absent or not connected (emitting nothing), else emit exactly one
`send_message` event with the given payload. -/
def sendMessage (socket : Option Bool) (data : SendMessageData) :
    Except String (List (String × SendMessageData)) :=
  match socket with
  | none => .error "Socket not connected"
  | some connected =>
    if connected then .ok [("send_message", data)]
    else .error "Socket not connected"

/-! ## `GameRoom` active-user handlers -/

/-- A `user_joined` or `user_left` socket event, projected to the user id
the handlers use. -/
inductive RoomEvent where
  | joined (userId : String)
  | left (userId : String)
  deriving DecidableEq, Repr

/-- The `GameRoom.tsx` handlers (lines 111–131): `user_joined` does
`setActiveUsers(prev => [...prev, data.user_id])`; `user_left` filters the
id out. -/
def activeUsersStep (l : List String) : RoomEvent → List String
  | .joined u => l ++ [u]
  | .left u => l.filter (fun v => v ≠ u)

/-- The `part_008` handlers (lines 507–560): `user_joined` appends only
when `!currentActiveUsers.includes(data.user_id)`; `user_left` filters the
id out. -/
def activeUsersStepDedup (l : List String) : RoomEvent → List String
  | .joined u => if u ∈ l then l else l ++ [u]
  | .left u => l.filter (fun v => v ≠ u)

/-- Run a sequence of join/leave events through the `GameRoom.tsx`
handlers. -/
def runActiveUsers (l : List String) (es : List RoomEvent) : List String :=
  es.foldl activeUsersStep l

/-- Run a sequence of join/leave events through the `part_008` handlers. -/
def runActiveUsersDedup (l : List String) (es : List RoomEvent) : List String :=
  es.foldl activeUsersStepDedup l

/-! ## Moderation notifications (`ModerationNotifications.tsx`) -/

/-- The severity labels used by notifications and moderation verdicts. -/
inductive Severity where
  | low | medium | high | critical
  deriving DecidableEq, Repr

/-- The `Notification` interface (lines 7–16): `autoHide` and `duration`
are optional fields. -/
structure Notification where
  id : String
  type : String
  title : String
  message : String
  severity : Severity
  autoHide : Option Bool
  duration : Option Nat
  deriving DecidableEq, Repr

/-- The `UserModerationData` payload of `user_muted` / `user_banned`
(`types.ts`): `duration` is optional. -/
structure UserModerationData where
  user_id : String
  reason : String
  severity : Severity
  duration : Option Nat
  timestamp : String
  deriving DecidableEq, Repr

/-- The `CrisisResourcesData` payload of `crisis_resources`. -/
structure CrisisResourcesData where
  message : String
  resources : List String
  timestamp : String
  deriving DecidableEq, Repr

/-- JavaScript `a || b` on an optional number: a missing or zero (falsy)
`a` yields `b`. -/
def jsOrNat (a : Option Nat) (b : Nat) : Nat :=
  match a with
  | some n => if n = 0 then b else n
  | none => b

/-- Embedding of `handleUserBanned` (lines 23–32): a `ban` notification with severity
`critical` and `autoHide: false`; no `duration` field is set.  `now` stands
for `Date.now()` used in the id. -/
def handleUserBanned (data : UserModerationData) (now : Nat) : Notification :=
  { id := "ban-" ++ toString now
    type := "ban"
    title := "🚫 Account Banned"
    message := "You have been banned: " ++ data.reason
    severity := .critical
    autoHide := some false
    duration := none }

/-- Embedding of `handleUserMuted` (lines 34–44): a `mute` notification with severity
`high`, `autoHide: true` and `duration: (data.duration || 300) * 1000`. -/
def handleUserMuted (data : UserModerationData) (now : Nat) : Notification :=
  { id := "mute-" ++ toString now
    type := "mute"
    title := "🔇 Temporarily Muted"
    message := "You are muted for " ++ toString (jsOrNat data.duration 300)
      ++ " seconds: " ++ data.reason
    severity := .high
    autoHide := some true
    duration := some (jsOrNat data.duration 300 * 1000) }

/-- Embedding of `handleCrisisResources` (lines 58–67): a `crisis` notification with
severity `critical` and `autoHide: false`; no `duration` field is set. -/
def handleCrisisResources (data : CrisisResourcesData) (now : Nat) : Notification :=
  { id := "crisis-" ++ toString now
    type := "crisis"
    title := "🚨 Crisis Support Available"
    message := data.message
    severity := .critical
    autoHide := some false
    duration := none }

/-- The timeout path of `addNotification` (lines 91–96):
`if (notification.autoHide && notification.duration)` schedules removal
after `notification.duration` milliseconds; otherwise no removal is ever
scheduled.  Returns the scheduled delay, if any. -/
def scheduledHideDelay (n : Notification) : Option Nat :=
  match n.autoHide, n.duration with
  | some true, some d => if d ≠ 0 then some d else none
  | _, _ => none

/-- Embedding of `addNotification` (lines 83–89), which prepends the new notification:
`setNotifications(prev => [newNotification, ...prev])`. -/
def addNotification (l : List Notification) (n : Notification) : List Notification :=
  n :: l

/-- Embedding of `removeNotification` (lines 99–101):
`prev.filter(n => n.id !== id)`. -/
def removeNotification (l : List Notification) (id : String) : List Notification :=
  l.filter (fun n => n.id ≠ id)

/-! ## Chat panel send handler (`ChatPanel.tsx` lines 112–122,
`part_001` lines 112–122) -/

/-- JavaScript `String.prototype.trim` on the input, embedded over the
character list: strip leading and trailing whitespace. -/
def jsTrim (s : List Char) : List Char :=
  ((s.dropWhile Char.isWhitespace).reverse.dropWhile Char.isWhitespace).reverse

/-- Embedding of `handleSend`: when `inputMessage.trim()` is truthy (non-empty), call
`onSendMessage(inputMessage.trim())` and clear the input; otherwise do
nothing.  Returns the argument passed to `onSendMessage` (at most one
call) and the resulting input field. -/
def handleSend (inputMessage : List Char) : Option (List Char) × List Char :=
  if jsTrim inputMessage = [] then (none, inputMessage)
  else (some (jsTrim inputMessage), [])

/-! ## Moderation pipeline (spec-modelled) -/

/-- The `ModerationVerdict` actions of §3 of the design. -/
inductive Verdict where
  | noAction | warn | mute | ban | escalateCrisis
  deriving DecidableEq, Repr

/-- Output of the crisis-language scorer: a severity, a confidence, and
whether the classification is ambiguous. -/
structure CrisisSignal where
  severity : Severity
  confidence : ℚ
  ambiguous : Bool
  deriving DecidableEq, Repr

/-- Inputs to the verdict combination: the crisis scorer's signal, whether
the toxicity scorer flagged the message (or was uncertain about it), and
the user's prior `warn` / `mute` counts. -/
structure ScorerResults where
  crisis : CrisisSignal
  toxicityFlagged : Bool
  toxicityUncertain : Bool
  priorWarns : Nat
  priorMutes : Nat
  deriving DecidableEq, Repr

/-- Modelled from the spec: the `ModerationPipeline.evaluate` combination
step (§4.3, §7(2)), whose implementation is not in the repository sources.
Scorer outputs are "combined by priority, not by averaging": a `critical`
crisis signal always yields `escalate_crisis`; an ambiguous crisis
classification with nonzero confidence also escalates ("crisis detection
defaults to escalate on ambiguity", "never favor silence on a possible
crisis signal"); otherwise a flagged or uncertain toxicity signal yields
at least `warn` ("favor warn over none when uncertain"), escalated by
prior offenses (3 warnings ⇒ mute, 2 mutes ⇒ ban). -/
def evaluateVerdict (r : ScorerResults) : Verdict :=
  if r.crisis.severity = .critical then .escalateCrisis
  else if r.crisis.ambiguous && decide (0 < r.crisis.confidence) then .escalateCrisis
  else if r.toxicityFlagged || r.toxicityUncertain then
    if 2 ≤ r.priorMutes then .ban
    else if 3 ≤ r.priorWarns then .mute
    else .warn
  else .noAction

/-! ## Lemmas about the duplicate scan -/

theorem isDuplicate_eq_true_iff (msgs : List Message) (m : Message) :
    isDuplicate msgs m = true ↔
      ∃ old ∈ msgs, old.message_id = m.message_id ∨
        (old.username = m.username ∧
          (old.message = m.message ∨ old.content = m.content) ∧
          (old.timestamp - m.timestamp).natAbs < 2000) := by
  simp [isDuplicate, isNearDuplicate, List.any_eq_true, and_assoc]

theorem append_singleton_ne_self (msgs : List Message) (m : Message) :
    msgs ++ [m] ≠ msgs := by
  intro h
  have := congrArg List.length h
  simp at this

/-- Concrete message used in the C1 counterexample: its `content` field is
absent, as the `Message` interface allows. -/
def msgHello : Message :=
  { message_id := "id-a", room_id := "r", user_id := none, username := "u"
    message := "hello", content := none, message_type := "user", timestamp := 0 }

/-- Second concrete message: different id, different text, same user and
timestamp, `content` also absent. -/
def msgBye : Message :=
  { message_id := "id-b", room_id := "r", user_id := none, username := "u"
    message := "bye", content := none, message_type := "user", timestamp := 0 }

/-- C1 counterexample: `msgBye` has a different id and different message
text from `msgHello` (so the claim's duplicate condition does not hold),
yet `addMessage` drops it, because both `content` fields are absent and
`undefined === undefined` makes the code's `m.content === message.content`
test succeed. -/
theorem addMessage_drops_distinct_message :
    specDuplicate [msgHello] msgBye = false ∧
    addMessage [msgHello] msgBye = [msgHello] := by
  constructor
  · decide
  · decide

/-- C1 (amended): `addMessage` leaves the list unchanged exactly when it
holds a message with the same id, or one from the same user whose
`message` fields are equal or whose `content` fields are equal (two absent
`content` fields comparing equal) with timestamps within 2000 ms;
otherwise the message is appended. -/
theorem addMessage_dedup_characterization (msgs : List Message) (m : Message) :
    (addMessage msgs m = msgs ↔
      ∃ old ∈ msgs, old.message_id = m.message_id ∨
        (old.username = m.username ∧
          (old.message = m.message ∨ old.content = m.content) ∧
          (old.timestamp - m.timestamp).natAbs < 2000)) ∧
    ((¬ ∃ old ∈ msgs, old.message_id = m.message_id ∨
        (old.username = m.username ∧
          (old.message = m.message ∨ old.content = m.content) ∧
          (old.timestamp - m.timestamp).natAbs < 2000)) →
      addMessage msgs m = msgs ++ [m]) := by
  unfold addMessage
  by_cases h : isDuplicate msgs m = true
  · rw [if_pos h]
    refine ⟨⟨fun _ => (isDuplicate_eq_true_iff msgs m).mp h, fun _ => rfl⟩, ?_⟩
    intro hne
    exact absurd ((isDuplicate_eq_true_iff msgs m).mp h) hne
  · rw [if_neg h]
    refine ⟨⟨fun heq => absurd heq (append_singleton_ne_self msgs m), ?_⟩,
      fun _ => rfl⟩
    intro hex
    exact absurd ((isDuplicate_eq_true_iff msgs m).mpr hex) h

/-- Witness for the amended C1 theorem at a concrete input. -/
theorem addMessage_dedup_characterization_witness :
    addMessage [] msgBye = [] ++ [msgBye] :=
  (addMessage_dedup_characterization [] msgBye).2 (by simp)

/-- C2: `addMessage` never removes or reorders stored messages — the
stored list is always a prefix of the result; an accepted message is
appended after all existing ones; and the plain-append variant always
appends. -/
theorem addMessage_preserves_history (msgs : List Message) (m : Message) :
    (addMessage msgs m).take msgs.length = msgs ∧
    (isDuplicate msgs m = false → addMessage msgs m = msgs ++ [m]) ∧
    addMessageAppend msgs m = msgs ++ [m] := by
  refine ⟨?_, fun h => by simp [addMessage, h], rfl⟩
  unfold addMessage
  by_cases h : isDuplicate msgs m = true
  · simp [h]
  · simp only [h, if_false, Bool.false_eq_true]
    exact List.take_left msgs [m]

/-- Witness for the C2 theorem at a concrete input. -/
theorem addMessage_preserves_history_witness :
    addMessage [msgHello] msgBye = [msgHello] ++ [msgBye] ∨
    addMessage [] msgHello = [] ++ [msgHello] :=
  Or.inr ((addMessage_preserves_history [] msgHello).2.1 (by decide))

/-- C9: the typing-user list behaves as a duplicate-free set — both
mutators preserve duplicate-freedom, `addTypingUser` is idempotent on a
present username, `removeTypingUser` removes every occurrence of the given
username and no other, and remove-after-add of an absent username restores
the original list. -/
theorem typingUsers_set_behavior :
    (∀ (l : List String) (u : String), l.Nodup →
      (addTypingUser l u).Nodup ∧ (removeTypingUser l u).Nodup) ∧
    (∀ (l : List String) (u : String), l.Nodup → u ∈ l →
      addTypingUser l u = l) ∧
    (∀ (l : List String) (u : String),
      (removeTypingUser l u).count u = 0 ∧
      ∀ v, v ≠ u → (removeTypingUser l u).count v = l.count v) ∧
    (∀ (l : List String) (u : String), l.Nodup → u ∉ l →
      removeTypingUser (addTypingUser l u) u = l) := by
  have hfilter_self : ∀ (l : List String) (u : String), u ∉ l →
      l.filter (fun v => v ≠ u) = l := by
    intro l u hu
    apply List.filter_eq_self.mpr
    intro v hv
    simp only [ne_eq, decide_eq_true_eq]
    exact fun hvu => hu (hvu ▸ hv)
  refine ⟨?_, ?_, ?_, ?_⟩
  · intro l u _
    exact ⟨jsSetDedup_nodup _, List.Nodup.filter _ ‹l.Nodup›⟩
  · intro l u hnd hu
    rw [addTypingUser, jsSetDedup_append_singleton u hnd, if_pos hu]
  · intro l u
    constructor
    · rw [List.count_eq_zero]
      intro hu
      have := List.of_mem_filter hu
      simp at this
    · intro v hv
      exact List.count_filter (by simp [hv])
  · intro l u hnd hu
    rw [addTypingUser, jsSetDedup_append_singleton u hnd, if_neg hu,
      removeTypingUser, List.filter_append, hfilter_self l u hu]
    simp

/-- Witness for the C9 theorem at a concrete input. -/
theorem typingUsers_set_behavior_witness :
    removeTypingUser (addTypingUser ["alice"] "bob") "bob" = ["alice"] :=
  typingUsers_set_behavior.2.2.2 ["alice"] "bob" (by decide) (by decide)

/-- C3 counterexample: with the `GameRoom.tsx` handlers, two `user_joined`
events for the same user starting from an empty room leave the id in
`activeUsers` twice, so the list is not duplicate-free. -/
theorem activeUsers_duplicate_counterexample :
    runActiveUsers [] [.joined "a", .joined "a"] = ["a", "a"] ∧
    ¬ (runActiveUsers [] [.joined "a", .joined "a"]).Nodup := by
  constructor
  · rfl
  · decide

/-- C3 (amended): with the deduplicating `part_008` handlers every
join/leave sequence keeps `activeUsers` duplicate-free, and for a user not
initially present a join followed by a leave restores the original list
under both handler variants; the `GameRoom.tsx` join handler alone can
duplicate an already-present id. -/
theorem activeUsers_set_amended :
    (∀ (l : List String) (es : List RoomEvent), l.Nodup →
      (runActiveUsersDedup l es).Nodup) ∧
    (∀ (l : List String) (u : String), u ∉ l →
      activeUsersStepDedup (activeUsersStepDedup l (.joined u)) (.left u) = l ∧
      activeUsersStep (activeUsersStep l (.joined u)) (.left u) = l) := by
  have hfilter_self : ∀ (l : List String) (u : String), u ∉ l →
      l.filter (fun v => v ≠ u) = l := by
    intro l u hu
    apply List.filter_eq_self.mpr
    intro v hv
    simp only [ne_eq, decide_eq_true_eq]
    exact fun hvu => hu (hvu ▸ hv)
  have hstep : ∀ (l : List String) (e : RoomEvent), l.Nodup →
      (activeUsersStepDedup l e).Nodup := by
    intro l e hnd
    cases e with
    | joined u =>
      by_cases hu : u ∈ l
      · simpa [activeUsersStepDedup, hu] using hnd
      · simp only [activeUsersStepDedup, hu, if_false]
        rw [List.nodup_append]
        exact ⟨hnd, List.nodup_singleton u, by simpa using hu⟩
    | left u => exact List.Nodup.filter _ hnd
  constructor
  · intro l es
    induction es generalizing l with
    | nil => exact fun h => h
    | cons e es ih =>
      intro hnd
      exact ih _ (hstep l e hnd)
  · intro l u hu
    have happend : (l ++ [u]).filter (fun v => v ≠ u) = l := by
      rw [List.filter_append, hfilter_self l u hu]
      simp
    constructor
    · simp only [activeUsersStepDedup, hu, if_false]
      exact happend
    · simpa only [activeUsersStep] using happend

/-- Witness for the amended C3 theorem at a concrete input. -/
theorem activeUsers_set_amended_witness :
    (runActiveUsersDedup ["a"] [.joined "b", .joined "b", .left "a"]).Nodup :=
  activeUsers_set_amended.1 ["a"] [.joined "b", .joined "b", .left "a"] (by decide)

/-- Concrete `user_muted` payload whose `duration` field is present but
zero. -/
def mutedZeroEvent : UserModerationData :=
  { user_id := "u1", reason := "spam", severity := .high
    duration := some 0, timestamp := "t" }

/-- C4 counterexample: for a `user_muted` event that carries the duration
`0`, the notification is scheduled to hide after 300 000 ms (the default),
not after the carried `0 * 1000` ms, because `data.duration || 300`
treats the falsy `0` as absent. -/
theorem userMuted_zero_duration_counterexample :
    scheduledHideDelay (handleUserMuted mutedZeroEvent 0) = some 300000 ∧
    (300000 : Nat) ≠ 0 * 1000 := by
  constructor
  · rfl
  · decide

/-- C4 (amended): the mute notification uses the event's duration when it
is present and nonzero, and defaults to 300 s when the duration is absent
or zero; the auto-hide timeout is scheduled for exactly that effective
duration times 1000 ms. -/
theorem userMuted_notification_duration (data : UserModerationData) (now : Nat) :
    (handleUserMuted data now).severity = .high ∧
    (handleUserMuted data now).autoHide = some true ∧
    (data.duration = none →
      scheduledHideDelay (handleUserMuted data now) = some (300 * 1000)) ∧
    (∀ n : Nat, data.duration = some n → n ≠ 0 →
      scheduledHideDelay (handleUserMuted data now) = some (n * 1000)) ∧
    (data.duration = some 0 →
      scheduledHideDelay (handleUserMuted data now) = some (300 * 1000)) := by
  refine ⟨rfl, rfl, ?_, ?_, ?_⟩
  · intro h
    simp [handleUserMuted, scheduledHideDelay, jsOrNat, h]
  · intro n h hn
    simp only [handleUserMuted, scheduledHideDelay, jsOrNat, h]
    rw [if_neg hn]
    have : n * 1000 ≠ 0 := by
      exact Nat.mul_ne_zero hn (by decide)
    simp [this]
  · intro h
    simp [handleUserMuted, scheduledHideDelay, jsOrNat, h]

/-- Witness for the amended C4 theorem at a concrete input. -/
theorem userMuted_notification_duration_witness :
    scheduledHideDelay (handleUserMuted
      { user_id := "u2", reason := "r", severity := .high
        duration := some 60, timestamp := "t" } 5) = some (60 * 1000) :=
  (userMuted_notification_duration
    { user_id := "u2", reason := "r", severity := .high
      duration := some 60, timestamp := "t" } 5).2.2.2.1 60 rfl (by decide)

/-- C5: `SocketService.sendMessage` throws exactly when the socket is
absent or not connected (and then emits nothing), and on a connected
socket emits exactly one `send_message` event carrying the given
`{room_id, user_id, username, message}` payload. -/
theorem sendMessage_spec (socket : Option Bool) (data : SendMessageData) :
    ((∃ e, sendMessage socket data = Except.error e) ↔
      (socket = none ∨ socket = some false)) ∧
    ((socket = none ∨ socket = some false) →
      sendMessage socket data = Except.error "Socket not connected") ∧
    (socket = some true →
      sendMessage socket data = Except.ok [("send_message", data)]) := by
  refine ⟨?_, ?_, ?_⟩
  · constructor
    · rintro ⟨e, he⟩
      match socket with
      | none => exact Or.inl rfl
      | some true => simp [sendMessage] at he
      | some false => exact Or.inr rfl
    · rintro (h | h) <;> subst h <;> exact ⟨"Socket not connected", rfl⟩
  · rintro (h | h) <;> subst h <;> rfl
  · intro h
    subst h
    rfl

/-- Witness for the C5 theorem at a concrete input. -/
theorem sendMessage_spec_witness :
    sendMessage (some true)
      { room_id := "r1", user_id := "u1", username := "alice", message := "hi" } =
      Except.ok [("send_message",
        { room_id := "r1", user_id := "u1", username := "alice", message := "hi" })] :=
  (sendMessage_spec (some true)
    { room_id := "r1", user_id := "u1", username := "alice", message := "hi" }).2.2 rfl

/-! ## Lemmas about the avatar map -/

theorem mapGet_cons (x : String × Avatar) (l : List (String × Avatar))
    (k : String) :
    mapGet (x :: l) k = if x.1 == k then some x.2 else mapGet l k := by
  by_cases h : (x.1 == k) = true
  · simp [mapGet, List.find?_cons_of_pos _ h, h]
  · simp [mapGet, List.find?_cons_of_neg _ h, h]

theorem mapGet_replace_self (m : List (String × Avatar)) (k : String)
    (v : Avatar) :
    mapGet (m.map (fun p => if p.1 == k then (k, v) else p)) k =
      (mapGet m k).map (fun _ => v) := by
  induction m with
  | nil => simp [mapGet]
  | cons q m' ih =>
    rw [List.map_cons, mapGet_cons, mapGet_cons]
    by_cases hq : (q.1 == k) = true
    · simp [hq]
    · simp only [if_neg hq]
      simp [hq]
      simpa using ih

theorem mapGet_replace_other (m : List (String × Avatar)) (k : String)
    (v : Avatar) (k' : String) (hk : k' ≠ k) :
    mapGet (m.map (fun p => if p.1 == k then (k, v) else p)) k' =
      mapGet m k' := by
  induction m with
  | nil => rfl
  | cons q m' ih =>
    rw [List.map_cons, mapGet_cons, mapGet_cons]
    by_cases hq : (q.1 == k) = true
    · have hkk' : ¬ ((k : String) == k') = true := by
        simp only [beq_iff_eq]
        exact fun h => hk h.symm
      have hqk' : ¬ ((q.1 : String) == k') = true := by
        simp only [beq_iff_eq] at hq ⊢
        rw [hq]
        exact fun h => hk h.symm
      simp [hq, hkk', hqk']
      simpa using ih
    · by_cases hqk' : (q.1 == k') = true
      · simp [hq, hqk']
      · simp [hq, hqk']
        simpa using ih

theorem any_key_of_mapGet_some {m : List (String × Avatar)} {k : String}
    {a : Avatar} (h : mapGet m k = some a) :
    m.any (fun p => p.1 == k) = true := by
  rcases Option.map_eq_some'.mp h with ⟨q, hq, _⟩
  refine List.any_eq_true.mpr ⟨q, List.mem_of_find?_eq_some hq, ?_⟩
  have := List.find?_some hq
  simpa using this

/-- C6: `updateAvatarPosition` for an unknown user leaves the avatar map's
contents unchanged; for a known user it stores the looked-up avatar with
only its `position` replaced (username, style and color intact) and leaves
every other key's binding unchanged. -/
theorem updateAvatarPosition_frame (m : List (String × Avatar))
    (userId : String) (position : Position) :
    (mapGet m userId = none → updateAvatarPosition m userId position = m) ∧
    (∀ a, mapGet m userId = some a →
      mapGet (updateAvatarPosition m userId position) userId =
        some { a with position := position } ∧
      (∀ k, k ≠ userId →
        mapGet (updateAvatarPosition m userId position) k = mapGet m k)) := by
  constructor
  · intro h
    simp [updateAvatarPosition, h]
  · intro a ha
    have hany := any_key_of_mapGet_some ha
    have hupd : updateAvatarPosition m userId position =
        m.map (fun p => if p.1 == userId then
          (userId, { a with position := position }) else p) := by
      simp only [updateAvatarPosition, ha]
      rw [mapSet, if_pos hany]
    constructor
    · rw [hupd, mapGet_replace_self, ha]
      rfl
    · intro k hk
      rw [hupd, mapGet_replace_other _ _ _ _ hk]

/-- Witness for the C6 theorem at a concrete input. -/
theorem updateAvatarPosition_frame_witness :
    updateAvatarPosition
      [("u1", { userId := "u1", username := "alice", position := ⟨1, 2⟩
                avatarStyle := "cat", avatarColor := "blue" })]
      "ghost" ⟨7, 8⟩ =
      [("u1", { userId := "u1", username := "alice", position := ⟨1, 2⟩
                avatarStyle := "cat", avatarColor := "blue" })] :=
  (updateAvatarPosition_frame
    [("u1", { userId := "u1", username := "alice", position := ⟨1, 2⟩
              avatarStyle := "cat", avatarColor := "blue" })]
    "ghost" ⟨7, 8⟩).1 (by decide)

/-- C7 (spec-modelled pipeline): a `critical` crisis signal always yields
`escalate_crisis` regardless of the other scorers, and an ambiguous
crisis classification with nonzero confidence never resolves to the
verdict `none`. -/
theorem crisis_failsafe (r : ScorerResults) :
    (r.crisis.severity = .critical → evaluateVerdict r = .escalateCrisis) ∧
    (r.crisis.ambiguous = true → 0 < r.crisis.confidence →
      evaluateVerdict r ≠ .noAction) := by
  constructor
  · intro h
    rw [evaluateVerdict, if_pos h]
  · intro hamb hconf
    rw [evaluateVerdict]
    by_cases hc : r.crisis.severity = Severity.critical
    · rw [if_pos hc]
      intro h
      exact Verdict.noConfusion h
    · rw [if_neg hc]
      have : (r.crisis.ambiguous && decide (0 < r.crisis.confidence)) = true := by
        rw [hamb, decide_eq_true hconf]
        rfl
      rw [if_pos this]
      intro h
      exact Verdict.noConfusion h

/-- Witness for the C7 theorem at a concrete input. -/
theorem crisis_failsafe_witness :
    evaluateVerdict
      { crisis := { severity := .critical, confidence := 1, ambiguous := false }
        toxicityFlagged := false, toxicityUncertain := false
        priorWarns := 0, priorMutes := 0 } = Verdict.escalateCrisis :=
  (crisis_failsafe
    { crisis := { severity := .critical, confidence := 1, ambiguous := false }
      toxicityFlagged := false, toxicityUncertain := false
      priorWarns := 0, priorMutes := 0 }).1 rfl

/-- C8: `user_banned` and `crisis_resources` notifications always carry
severity `critical` with `autoHide: false`, so `addNotification` never
schedules their automatic removal — they can only disappear through an
explicit `removeNotification` of their id. -/
theorem banned_crisis_never_autohide (data : UserModerationData)
    (cdata : CrisisResourcesData) (now : Nat) :
    (handleUserBanned data now).severity = .critical ∧
    (handleUserBanned data now).autoHide = some false ∧
    scheduledHideDelay (handleUserBanned data now) = none ∧
    (handleCrisisResources cdata now).severity = .critical ∧
    (handleCrisisResources cdata now).autoHide = some false ∧
    scheduledHideDelay (handleCrisisResources cdata now) = none ∧
    (∀ (l : List Notification) (n : Notification) (id : String),
      n ∈ removeNotification l id ↔ n ∈ l ∧ n.id ≠ id) :=
  ⟨rfl, rfl, rfl, rfl, rfl, rfl, by
    intro l n id
    simp [removeNotification, List.mem_filter]⟩

/-- C10: the chat send handler calls `onSendMessage` at most once, only
with the trimmed input and only when the trimmed input is non-empty;
on an empty or all-whitespace input it calls nothing and leaves the
input field unchanged. -/
theorem handleSend_spec (s : List Char) :
    (jsTrim s = [] → handleSend s = (none, s)) ∧
    (jsTrim s ≠ [] → handleSend s = (some (jsTrim s), [])) ∧
    ((∀ c ∈ s, c.isWhitespace = true) → handleSend s = (none, s)) := by
  refine ⟨fun h => by rw [handleSend, if_pos h],
    fun h => by rw [handleSend, if_neg h], fun hws => ?_⟩
  have htrim : jsTrim s = [] := by
    rw [jsTrim]
    have h1 : s.dropWhile Char.isWhitespace = [] :=
      List.dropWhile_eq_nil_iff.mpr hws
    rw [h1]
    rfl
  rw [handleSend, if_pos htrim]

/-- Witness for the C10 theorem at a concrete input. -/
theorem handleSend_spec_witness :
    handleSend [' ', 'h', 'i', ' '] = (some ['h', 'i'], []) :=
  (handleSend_spec [' ', 'h', 'i', ' ']).2.1 (by decide)
